import Mathlib

/-!
Shallow embedding of the civic-issue workflow engine: the SQL trigger
functions (`auto_assign_issue_to_area`, `handle_tender_award`,
`update_issue_counts`) and the client progress-submission flow
(`handleSubmit` in `WorkProgressTracker.js`).  Tables become lists of
rows, a trigger becomes a function from database state to database
state, and the collaborators of the client flow (media upload,
persistence, JavaScript `parseFloat`) are passed in explicitly.
-/

namespace CivicIssue

/-- Row of the `areas` table (the fields the triggers read). -/
structure Area where
  id : Nat
  name : String
  is_active : Bool
deriving Repr, DecidableEq

/-- Row of the `profiles` table (the fields the triggers read). -/
structure Profile where
  id : Nat
  user_type : String
  assigned_area_id : Option Nat
  is_verified : Bool
deriving Repr, DecidableEq

/-- Row of the `issues` table (the fields the triggers read or write). -/
@[ext] structure Issue where
  id : Nat
  area : Option String
  workflow_stage : String
  status : String
  assigned_area_id : Option Nat
  current_assignee_id : Option Nat
  upvotes : Int
  downvotes : Int
deriving Repr, DecidableEq

/-- Row of the `tenders` table (the fields `handle_tender_award` reads). -/
structure Tender where
  id : Nat
  status : String
  awarded_to : Option Nat
  source_issue_id : Option Nat
deriving Repr, DecidableEq

/-- Row of the `issue_assignments` table (the fields `handle_tender_award` sets). -/
structure IssueAssignment where
  issue_id : Option Nat
  assigned_by : Option Nat
  assigned_to : Option Nat
  assignment_type : String
  assignment_notes : String
  status : String
deriving Repr, DecidableEq

/-- Row of the `issue_votes` table (the fields `update_issue_counts` reads). -/
structure Vote where
  issue_id : Nat
  vote_type : String
deriving Repr, DecidableEq

/-- Database state touched by the triggers. -/
@[ext] structure DB where
  areas : List Area
  profiles : List Profile
  issues : List Issue
  assignments : List IssueAssignment
deriving Repr, DecidableEq

/-- Effect of `UPDATE issues SET ... WHERE id = <iid>`: apply `f` to every
row whose `id` matches; a null `iid` matches no row, as in SQL. -/
def updateIssuesWhere (db : DB) (iid : Option Nat) (f : Issue → Issue) : DB :=
  { db with issues := db.issues.map fun i => if some i.id = iid then f i else i }

/-- Subquery `SELECT a.id FROM areas a WHERE a.name = <nm> AND a.is_active = true
LIMIT 1`.  `LIMIT 1` without `ORDER BY` picks an arbitrary matching row; we
concretise it as the first row in table order. -/
def selectActiveAreaId (db : DB) (nm : String) : Option Nat :=
  (db.areas.find? fun a => a.name == nm && a.is_active).map Area.id

/-- Subquery `SELECT p.id FROM profiles p JOIN areas a ON p.assigned_area_id = a.id
WHERE a.name = <nm> AND p.user_type = 'area_super_admin' AND p.is_verified = true
LIMIT 1`, concretised as the first matching profile in table order. -/
def selectAreaAdminId (db : DB) (nm : String) : Option Nat :=
  (db.profiles.find? fun p =>
      p.user_type == "area_super_admin" && p.is_verified &&
      (db.areas.find? fun a => some a.id == p.assigned_area_id && a.name == nm).isSome).map
    Profile.id

/-- Body of the SQL function `auto_assign_issue_to_area`, a BEFORE INSERT
trigger on `issues`: it rewrites the incoming row NEW (stamping
`workflow_stage`), and when the row names an area it runs
`UPDATE issues ... WHERE id = NEW.id` against the table as it stands when the
trigger fires.  It returns the row that will be inserted together with the
table state after the trigger body ran. -/
def auto_assign_issue_to_area (db : DB) (row : Issue) : Issue × DB :=
  let row := { row with workflow_stage := "area_review" }
  match row.area with
  | some nm =>
      (row, updateIssuesWhere db (some row.id) fun i =>
        { i with assigned_area_id := selectActiveAreaId db nm,
                 current_assignee_id := selectAreaAdminId db nm })
  | none => (row, db)

/-- Effect of `INSERT INTO issues` under the trigger `auto_assign_new_issues`
(BEFORE INSERT FOR EACH ROW): the trigger body runs first, over a table that
does not yet contain the new row, and then the possibly rewritten row is
inserted. -/
def insertIssue (db : DB) (row : Issue) : DB :=
  let r := auto_assign_issue_to_area db row
  { r.2 with issues := r.2.issues ++ [r.1] }

/-- Row inserted into `issue_assignments` by `handle_tender_award`; `uid` is
`auth.uid()`. -/
def awardAssignment (uid : Option Nat) (t : Tender) : IssueAssignment :=
  { issue_id := t.source_issue_id
    assigned_by := uid
    assigned_to := t.awarded_to
    assignment_type := "department_to_contractor"
    assignment_notes := "Tender awarded - contractor assigned"
    status := "active" }

/-- Body of the SQL function `handle_tender_award`, an AFTER UPDATE trigger on
`tenders`; `told` and `tnew` are the trigger's OLD and NEW rows. -/
def handle_tender_award (db : DB) (uid : Option Nat) (told tnew : Tender) : DB :=
  if tnew.status == "awarded" && !(told.status == "awarded") then
    let db := updateIssuesWhere db tnew.source_issue_id fun i =>
      { i with workflow_stage := "contractor_assigned",
               status := "in_progress",
               current_assignee_id := tnew.awarded_to }
    { db with assignments := db.assignments ++ [awardAssignment uid tnew] }
  else db

/-- Triggering operation on `issue_votes` (`TG_OP` plus the OLD/NEW rows). -/
inductive VoteOp where
  | ins (v : Vote)
  | del (v : Vote)
  | upd (vold vnew : Vote)
deriving Repr, DecidableEq

/-- Body of the SQL function `update_issue_counts`, the AFTER INSERT OR UPDATE
OR DELETE trigger on `issue_votes`.  `GREATEST(x - 1, 0)` is `max (x - 1) 0`. -/
def update_issue_counts (db : DB) (op : VoteOp) : DB :=
  match op with
  | .ins v =>
      if v.vote_type == "upvote" then
        updateIssuesWhere db (some v.issue_id) fun i => { i with upvotes := i.upvotes + 1 }
      else if v.vote_type == "downvote" then
        updateIssuesWhere db (some v.issue_id) fun i => { i with downvotes := i.downvotes + 1 }
      else db
  | .del v =>
      if v.vote_type == "upvote" then
        updateIssuesWhere db (some v.issue_id) fun i =>
          { i with upvotes := max (i.upvotes - 1) 0 }
      else if v.vote_type == "downvote" then
        updateIssuesWhere db (some v.issue_id) fun i =>
          { i with downvotes := max (i.downvotes - 1) 0 }
      else db
  | .upd vold vnew =>
      if vold.vote_type == "upvote" && vnew.vote_type == "downvote" then
        updateIssuesWhere db (some vnew.issue_id) fun i =>
          { i with upvotes := max (i.upvotes - 1) 0, downvotes := i.downvotes + 1 }
      else if vold.vote_type == "downvote" && vnew.vote_type == "upvote" then
        updateIssuesWhere db (some vnew.issue_id) fun i =>
          { i with downvotes := max (i.downvotes - 1) 0, upvotes := i.upvotes + 1 }
      else db

/-- Characters stripped by JavaScript `String.prototype.trim` (the ASCII
whitespace subset relevant to form input). -/
def jsWhite (c : Char) : Bool :=
  c == ' ' || c == '\t' || c == '\n' || c == '\r'

/-- List-level trim: drop `jsWhite` characters from both ends. -/
def trimChars (l : List Char) : List Char :=
  ((l.dropWhile jsWhite).reverse.dropWhile jsWhite).reverse

/-- JavaScript `s.trim()`. -/
def jsTrim (s : String) : String := ⟨trimChars s.data⟩

/-- JavaScript `split` with a one-character separator, at the character-list
level: splitting an empty string yields one empty piece, and every separator
occurrence starts a new piece. -/
def splitChars (sep : Char) : List Char → List (List Char)
  | [] => [[]]
  | c :: rest =>
      match splitChars sep rest with
      | [] => [[]]
      | w :: ws => if c == sep then [] :: w :: ws else (c :: w) :: ws

/-- JavaScript `text.split(',')`. -/
def jsSplitComma (s : String) : List String :=
  (splitChars ',' s.data).map String.mk

/-- The `materials_used` input handler of the form:
`text.split(',').map(m => m.trim()).filter(m => m)`. -/
def setMaterialsUsed (text : String) : List String :=
  ((jsSplitComma text).map jsTrim).filter fun m => m != ""

/-- Client-side form state (`progressData` in the component). -/
structure ProgressForm where
  title : String
  description : String
  progress_percentage : Int
  status : String
  materials_used : List String
  labor_hours : String
  expenses_incurred : String
  milestone_reached : String
  next_milestone : String
  contractor_notes : String
deriving Repr, DecidableEq

/-- Initial (and post-success reset) value of the form. -/
def initialForm : ProgressForm :=
  { title := "", description := "", progress_percentage := 0, status := "in_progress",
    materials_used := [], labor_hours := "", expenses_incurred := "",
    milestone_reached := "", next_milestone := "", contractor_notes := "" }

/-- Component state relevant to submission: the form and the picked image URIs. -/
structure TrackerState where
  progressData : ProgressForm
  selectedImages : List String
deriving Repr, DecidableEq

/-- Payload handed to `submitWorkProgress`. -/
structure ProgressPayload where
  title : String
  description : String
  progress_percentage : Int
  status : String
  materials_used : List String
  labor_hours : Rat
  expenses_incurred : Rat
  milestone_reached : String
  next_milestone : String
  contractor_notes : String
  issue_id : Option Nat
  tender_id : Option Nat
  images : List String
deriving Repr, DecidableEq

/-- Behaviour of the collaborators of `handleSubmit`: whether the batched media
upload rejects as a whole, the per-image outcome when it does not (`some url`
on success, `none` for a failed item), the error returned by the insert call
(if any), and JavaScript `parseFloat` (`none` models `NaN`). -/
structure SubmitEnv where
  uploadThrows : Bool
  upload : String → Option String
  insertError : Option String
  parseNumber : String → Option Rat

/-- JavaScript `parseFloat(s) || 0`: the parsed value, with `NaN` (and `0`
itself) collapsing to `0`. -/
def parseOrZero (pf : String → Option Rat) (s : String) : Rat :=
  (pf s).getD 0

/-- How a `handleSubmit` call ended, as signalled to the user via alerts. -/
inductive SubmitStatus where
  | validationError
  | uploadError
  | persistError
  | success
deriving Repr, DecidableEq

/-- Observable result of one `handleSubmit` call: the component state
afterwards, the rows persisted by the call, whether the upload collaborator was
invoked, the payload handed to the insert call (if it was reached), and the
reported outcome. -/
structure SubmitResult where
  state : TrackerState
  persisted : List ProgressPayload
  uploadCalled : Bool
  insertPayload : Option ProgressPayload
  outcome : SubmitStatus
deriving Repr, DecidableEq

/-- The `imageUrls` value computed by `handleSubmit`: when images were picked,
the batch upload runs and only the URLs of the successful items are kept. -/
def uploadedUrls (env : SubmitEnv) (st : TrackerState) : List String :=
  if st.selectedImages.length > 0 then st.selectedImages.filterMap env.upload else []

/-- The `progressPayload` value assembled by `handleSubmit`: the form fields
merged with the ids and image URLs, with `materials_used` filtered for entries
that are blank after trimming and the two numeric strings parsed via
`parseFloat(x) || 0`. -/
def buildPayload (env : SubmitEnv) (issueId tenderId : Option Nat)
    (st : TrackerState) : ProgressPayload :=
  { title := st.progressData.title
    description := st.progressData.description
    progress_percentage := st.progressData.progress_percentage
    status := st.progressData.status
    materials_used := st.progressData.materials_used.filter fun m => jsTrim m != ""
    labor_hours := parseOrZero env.parseNumber st.progressData.labor_hours
    expenses_incurred := parseOrZero env.parseNumber st.progressData.expenses_incurred
    milestone_reached := st.progressData.milestone_reached
    next_milestone := st.progressData.next_milestone
    contractor_notes := st.progressData.contractor_notes
    issue_id := issueId
    tender_id := tenderId
    images := uploadedUrls env st }

/-- The component's `handleSubmit`, with collaborator behaviour supplied by
`env` and the `issueId`/`tenderId` props as arguments.  An empty string is
falsy in JavaScript, so the validation guard is an emptiness test; the image
upload only happens when images were picked; the success alert's OK handler
resets the form and image list. -/
def handleSubmit (env : SubmitEnv) (issueId tenderId : Option Nat)
    (st : TrackerState) : SubmitResult :=
  if st.progressData.title == "" || st.progressData.description == "" then
    { state := st, persisted := [], uploadCalled := false, insertPayload := none,
      outcome := .validationError }
  else if decide (st.selectedImages.length > 0) && env.uploadThrows then
    { state := st, persisted := [], uploadCalled := true, insertPayload := none,
      outcome := .uploadError }
  else
    match env.insertError with
    | some _ =>
        { state := st, persisted := [],
          uploadCalled := decide (st.selectedImages.length > 0),
          insertPayload := some (buildPayload env issueId tenderId st),
          outcome := .persistError }
    | none =>
        { state := { progressData := initialForm, selectedImages := [] },
          persisted := [buildPayload env issueId tenderId st],
          uploadCalled := decide (st.selectedImages.length > 0),
          insertPayload := some (buildPayload env issueId tenderId st),
          outcome := .success }

/-! Concrete data used by the closed witness theorems. -/

/-- Database with one active area named like the incoming issue's `area` field
and no profiles at all, hence no verified `area_super_admin` bound to it. -/
def cbdDB : DB :=
  { areas := [{ id := 1, name := "Central Business District", is_active := true }]
    profiles := []
    issues := []
    assignments := [] }

/-- Issue row as supplied by the client: it names the area, and both
assignment fields are null. -/
def cbdNewIssue : Issue :=
  { id := 10, area := some "Central Business District", workflow_stage := "reported",
    status := "pending", assigned_area_id := none, current_assignee_id := none,
    upvotes := 0, downvotes := 0 }

/-- Issue row sitting in the database for the tender-award and vote witnesses. -/
def wIssue : Issue :=
  { id := 5, area := none, workflow_stage := "department_assigned", status := "open",
    assigned_area_id := none, current_assignee_id := none, upvotes := 2, downvotes := 0 }

/-- Single-issue database for the tender-award and vote witnesses. -/
def wDB : DB :=
  { areas := [], profiles := [], issues := [wIssue], assignments := [] }

/-- Tender row before the award (OLD row of the trigger). -/
def wTenderOld : Tender :=
  { id := 9, status := "published", awarded_to := none, source_issue_id := some 5 }

/-- Tender row after the award (NEW row of the trigger). -/
def wTenderNew : Tender :=
  { id := 9, status := "awarded", awarded_to := some 7, source_issue_id := some 5 }

/-- Upvote on the witness issue. -/
def wVote : Vote := { issue_id := 5, vote_type := "upvote" }

/-- Collaborators that behave: the upload succeeds exactly on `img1`, the
insert succeeds, and only `12.5` parses. -/
def wEnvOk : SubmitEnv :=
  { uploadThrows := false
    upload := fun u => if u == "img1" then some "https://cdn.example/img1" else none
    insertError := none
    parseNumber := fun s => if s == "12.5" then some ((25 : Rat) / 2) else none }

/-- Same collaborators, but the insert call is rejected. -/
def wEnvInsertFail : SubmitEnv :=
  { wEnvOk with insertError := some "row violates row-level security policy" }

/-- Fully filled form with two picked images. -/
def wFullState : TrackerState :=
  { progressData :=
      { title := "Base layer done", description := "Compacted and sealed",
        progress_percentage := 40, status := "in_progress",
        materials_used := ["cement", "gravel"], labor_hours := "12.5",
        expenses_incurred := "n/a", milestone_reached := "Base layer",
        next_milestone := "Top layer", contractor_notes := "" },
    selectedImages := ["img1", "img2"] }

/-- Form whose title was left empty. -/
def wEmptyTitleState : TrackerState :=
  { progressData := { initialForm with description := "Resurfaced the road" },
    selectedImages := ["img1"] }

end CivicIssue

namespace CivicIssue

/-- Dropping a prefix twice is the same as dropping it once (restated from
Mathlib for the list-level trim). -/
theorem dropWhile_cons_self (q : Char → Bool) (a : Char) (t : List Char)
    (h : (a :: t).dropWhile q = a :: t) : ¬ q a := by
  rw [List.dropWhile_eq_self_iff] at h
  simpa using h (by simp)

/-- A left-trimmed list stays left-trimmed after trimming it on the right. -/
theorem dropWhile_rdropWhile (q : Char → Bool) (l : List Char)
    (hl : l.dropWhile q = l) :
    (l.rdropWhile q).dropWhile q = l.rdropWhile q := by
  cases hm : l.rdropWhile q with
  | nil => simp
  | cons a t =>
      have hpre : l.rdropWhile q <+: l := List.rdropWhile_prefix q l
      rw [hm] at hpre
      obtain ⟨r, hr⟩ := hpre
      rw [List.cons_append] at hr
      have ha : ¬ q a := by
        apply dropWhile_cons_self q a (t ++ r)
        rw [hr]
        exact hl
      rw [List.dropWhile_cons, if_neg ha]

/-- Unfolding of `trimChars` through Mathlib's `rdropWhile`. -/
theorem trimChars_eq (l : List Char) :
    trimChars l = (l.dropWhile jsWhite).rdropWhile jsWhite := rfl

/-- Trimming is idempotent at the character-list level. -/
theorem trimChars_idem (l : List Char) : trimChars (trimChars l) = trimChars l := by
  rw [trimChars_eq, trimChars_eq]
  rw [dropWhile_rdropWhile jsWhite (l.dropWhile jsWhite) (List.dropWhile_idempotent _ _)]
  exact List.rdropWhile_idempotent jsWhite _

/-- JavaScript trim is idempotent. -/
theorem jsTrim_idem (s : String) : jsTrim (jsTrim s) = jsTrim s :=
  congrArg String.mk (trimChars_idem s.data)

end CivicIssue

namespace CivicIssue

/-- C8: for every newly inserted issue, regardless of its supplied fields, the
inserted row's `workflow_stage` is `'area_review'` (the BEFORE trigger stamps
the NEW row before it is appended). -/
theorem inserted_issue_workflow_stage (db : DB) (row : Issue) :
    ((insertIssue db row).issues.getLast?).map Issue.workflow_stage
      = some "area_review" := by
  unfold insertIssue auto_assign_issue_to_area
  cases h : row.area <;> simp [h, List.getLast?_concat]

/-- C1 counterexample evaluation: in a database holding a matching active area
but no verified area_super_admin for it, inserting an issue that names the area
leaves `assigned_area_id` null.  The trigger runs BEFORE INSERT, so its
`UPDATE issues ... WHERE id = NEW.id` fires against a table that does not yet
contain the row and affects zero rows. -/
theorem auto_assign_area_not_set :
    selectActiveAreaId cbdDB "Central Business District" = some 1 ∧
    selectAreaAdminId cbdDB "Central Business District" = none ∧
    ((insertIssue cbdDB cbdNewIssue).issues.map fun i =>
        (i.id, i.assigned_area_id, i.current_assignee_id))
      = [(10, none, none)] := by decide

/-- C3: when the OLD tender row is already `'awarded'`, the award trigger
changes nothing: no issue update and no new assignment row. -/
theorem tender_award_noop (db : DB) (uid : Option Nat) (told tnew : Tender)
    (hold : told.status = "awarded") :
    handle_tender_award db uid told tnew = db := by
  simp [handle_tender_award, hold]

/-- Witness for `tender_award_noop`: re-saving the already-awarded tender. -/
theorem tender_award_noop_witness :
    handle_tender_award wDB (some 2) wTenderNew wTenderNew = wDB :=
  tender_award_noop wDB (some 2) wTenderNew wTenderNew rfl

/-- Helper: a string cannot be both vote types at once. -/
theorem beq_upvote_downvote (s : String) :
    ((s == "upvote") && (s == "downvote")) = false := by
  by_cases h : s = "upvote" <;> simp [h]

/-- Helper: a string cannot be both vote types at once (other order). -/
theorem beq_downvote_upvote (s : String) :
    ((s == "downvote") && (s == "upvote")) = false := by
  by_cases h : s = "downvote" <;> simp [h]

/-- C10: a vote UPDATE whose type is unchanged leaves both counters of every
issue untouched. -/
theorem vote_update_same_type_noop (db : DB) (vold vnew : Vote)
    (h : vold.vote_type = vnew.vote_type) :
    update_issue_counts db (.upd vold vnew) = db := by
  have h1 : ((vold.vote_type == "upvote") && (vnew.vote_type == "downvote")) = false := by
    rw [h]; exact beq_upvote_downvote _
  have h2 : ((vold.vote_type == "downvote") && (vnew.vote_type == "upvote")) = false := by
    rw [h]; exact beq_downvote_upvote _
  simp [update_issue_counts, h1, h2]

/-- Witness for `vote_update_same_type_noop`: an upvote re-saved as an upvote. -/
theorem vote_update_same_type_noop_witness :
    update_issue_counts wDB (.upd wVote wVote) = wDB :=
  vote_update_same_type_noop wDB wVote wVote rfl

end CivicIssue

namespace CivicIssue

/-- C2: a status transition into `'awarded'` appends exactly one active
`department_to_contractor` assignment authored by the caller, and every issue
row matching the tender's source issue gets workflow_stage
`'contractor_assigned'`, status `'in_progress'` and the awarded contractor as
current assignee. -/
theorem tender_award_transition (db : DB) (uid : Option Nat) (told tnew : Tender)
    (iid : Nat) (hnew : tnew.status = "awarded") (hold : told.status ≠ "awarded")
    (hsrc : tnew.source_issue_id = some iid)
    (hex : ∃ i ∈ db.issues, i.id = iid) :
    (handle_tender_award db uid told tnew).assignments
        = db.assignments ++
          [{ issue_id := some iid, assigned_by := uid, assigned_to := tnew.awarded_to,
             assignment_type := "department_to_contractor",
             assignment_notes := "Tender awarded - contractor assigned",
             status := "active" }] ∧
      (∃ i ∈ (handle_tender_award db uid told tnew).issues, i.id = iid) ∧
      ∀ i ∈ (handle_tender_award db uid told tnew).issues, i.id = iid →
        i.workflow_stage = "contractor_assigned" ∧ i.status = "in_progress" ∧
          i.current_assignee_id = tnew.awarded_to := by
  have hg : (tnew.status == "awarded" && !(told.status == "awarded")) = true := by
    simp [hnew, hold]
  unfold handle_tender_award
  rw [if_pos hg]
  refine ⟨?_, ?_, ?_⟩
  · simp [updateIssuesWhere, awardAssignment, hsrc]
  · obtain ⟨i, hi, hid⟩ := hex
    simp only [updateIssuesWhere, List.mem_map]
    refine ⟨_, ⟨i, hi, rfl⟩, ?_⟩
    have hpos : some i.id = tnew.source_issue_id := by rw [hsrc, hid]
    rw [if_pos hpos]
    exact hid
  · intro i hi hid
    simp only [updateIssuesWhere, List.mem_map] at hi
    obtain ⟨x, hx, rfl⟩ := hi
    by_cases hxid : some x.id = tnew.source_issue_id
    · rw [if_pos hxid]
      exact ⟨rfl, rfl, rfl⟩
    · rw [if_neg hxid] at hid ⊢
      exact absurd (by rw [hsrc, hid]) hxid

/-- Witness for `tender_award_transition`: tender 9 over issue 5 moves from
`'published'` to `'awarded'` in favour of contractor 7. -/
theorem tender_award_transition_witness :
    (handle_tender_award wDB (some 2) wTenderOld wTenderNew).assignments
        = wDB.assignments ++
          [{ issue_id := some 5, assigned_by := some 2, assigned_to := wTenderNew.awarded_to,
             assignment_type := "department_to_contractor",
             assignment_notes := "Tender awarded - contractor assigned",
             status := "active" }] ∧
      (∃ i ∈ (handle_tender_award wDB (some 2) wTenderOld wTenderNew).issues, i.id = 5) ∧
      ∀ i ∈ (handle_tender_award wDB (some 2) wTenderOld wTenderNew).issues, i.id = 5 →
        i.workflow_stage = "contractor_assigned" ∧ i.status = "in_progress" ∧
          i.current_assignee_id = wTenderNew.awarded_to :=
  tender_award_transition wDB (some 2) wTenderOld wTenderNew 5 rfl (by decide) rfl
    ⟨wIssue, by decide, rfl⟩

end CivicIssue

namespace CivicIssue

/-- Two id-targeted issue updates cancel when the second inverts the first on
every matching row. -/
theorem updateIssuesWhere_cancel (db : DB) (iid : Option Nat) (f g : Issue → Issue)
    (hfid : ∀ i, (f i).id = i.id)
    (hgf : ∀ i ∈ db.issues, some i.id = iid → g (f i) = i) :
    updateIssuesWhere (updateIssuesWhere db iid f) iid g = db := by
  have hpt : ∀ i ∈ db.issues,
      ((fun i => if some i.id = iid then g i else i) ∘
        fun i => if some i.id = iid then f i else i) i = i := by
    intro i hi
    by_cases h : some i.id = iid
    · simp only [Function.comp_apply, if_pos h]
      rw [if_pos (by rw [hfid]; exact h)]
      exact hgf i hi h
    · simp only [Function.comp_apply, if_neg h, if_neg h]
  have hissues :
      ((db.issues.map fun i => if some i.id = iid then f i else i).map
        fun i => if some i.id = iid then g i else i) = db.issues := by
    rw [List.map_map]
    exact (List.map_congr_left hpt).trans (List.map_id _)
  unfold updateIssuesWhere
  exact DB.ext rfl rfl hissues rfl

/-- C4: inserting a vote and later deleting it returns the issue counters to
their pre-insert values, and the intermediate state never holds a negative
counter. -/
theorem vote_insert_delete_roundtrip (db : DB) (v : Vote)
    (hpos : ∀ i ∈ db.issues, 0 ≤ i.upvotes ∧ 0 ≤ i.downvotes) :
    update_issue_counts (update_issue_counts db (.ins v)) (.del v) = db ∧
      ∀ i ∈ (update_issue_counts db (.ins v)).issues,
        0 ≤ i.upvotes ∧ 0 ≤ i.downvotes := by
  by_cases hu : v.vote_type = "upvote"
  · have e1 : update_issue_counts db (.ins v)
        = updateIssuesWhere db (some v.issue_id) fun i =>
            { i with upvotes := i.upvotes + 1 } := by
      simp [update_issue_counts, hu]
    have e2 : ∀ d : DB, update_issue_counts d (.del v)
        = updateIssuesWhere d (some v.issue_id) fun i =>
            { i with upvotes := max (i.upvotes - 1) 0 } := by
      intro d; simp [update_issue_counts, hu]
    rw [e1, e2]
    constructor
    · apply updateIssuesWhere_cancel
      · intro i; rfl
      · intro i hi _
        have h0 := (hpos i hi).1
        ext <;> simp
        omega
    · intro i hi
      simp only [updateIssuesWhere, List.mem_map] at hi
      obtain ⟨x, hx, rfl⟩ := hi
      have h0 := hpos x hx
      by_cases h : some x.id = some v.issue_id
      · rw [if_pos h]
        exact ⟨by simp; omega, h0.2⟩
      · rw [if_neg h]
        exact h0
  · by_cases hd : v.vote_type = "downvote"
    · have e1 : update_issue_counts db (.ins v)
          = updateIssuesWhere db (some v.issue_id) fun i =>
              { i with downvotes := i.downvotes + 1 } := by
        simp [update_issue_counts, hu, hd]
      have e2 : ∀ d : DB, update_issue_counts d (.del v)
          = updateIssuesWhere d (some v.issue_id) fun i =>
              { i with downvotes := max (i.downvotes - 1) 0 } := by
        intro d; simp [update_issue_counts, hu, hd]
      rw [e1, e2]
      constructor
      · apply updateIssuesWhere_cancel
        · intro i; rfl
        · intro i hi _
          have h0 := (hpos i hi).2
          ext <;> simp
          omega
      · intro i hi
        simp only [updateIssuesWhere, List.mem_map] at hi
        obtain ⟨x, hx, rfl⟩ := hi
        have h0 := hpos x hx
        by_cases h : some x.id = some v.issue_id
        · rw [if_pos h]
          exact ⟨h0.1, by simp; omega⟩
        · rw [if_neg h]
          exact h0
    · have e1 : update_issue_counts db (.ins v) = db := by
        simp [update_issue_counts, hu, hd]
      have e2 : update_issue_counts db (.del v) = db := by
        simp [update_issue_counts, hu, hd]
      rw [e1, e2]
      exact ⟨rfl, hpos⟩

/-- Witness for `vote_insert_delete_roundtrip`: an upvote on issue 5 (counters
2 and 0) inserted and deleted. -/
theorem vote_insert_delete_roundtrip_witness :
    (update_issue_counts (update_issue_counts wDB (.ins wVote)) (.del wVote) = wDB) ∧
      ∀ i ∈ (update_issue_counts wDB (.ins wVote)).issues,
        0 ≤ i.upvotes ∧ 0 ≤ i.downvotes :=
  vote_insert_delete_roundtrip wDB wVote (by decide)

end CivicIssue

namespace CivicIssue

/-- C5: an empty title or description is rejected locally: the upload service
is never called, no payload reaches the insert call, nothing is persisted, and
the component state is untouched. -/
theorem submit_rejects_empty (env : SubmitEnv) (issueId tenderId : Option Nat)
    (st : TrackerState)
    (h : st.progressData.title = "" ∨ st.progressData.description = "") :
    (handleSubmit env issueId tenderId st).uploadCalled = false ∧
      (handleSubmit env issueId tenderId st).insertPayload = none ∧
      (handleSubmit env issueId tenderId st).persisted = [] ∧
      (handleSubmit env issueId tenderId st).state = st := by
  rcases h with h | h <;> simp [handleSubmit, h]

/-- Witness for `submit_rejects_empty`: a form whose title is empty. -/
theorem submit_rejects_empty_witness :
    (handleSubmit wEnvOk (some 5) (some 9) wEmptyTitleState).uploadCalled = false ∧
      (handleSubmit wEnvOk (some 5) (some 9) wEmptyTitleState).insertPayload = none ∧
      (handleSubmit wEnvOk (some 5) (some 9) wEmptyTitleState).persisted = [] ∧
      (handleSubmit wEnvOk (some 5) (some 9) wEmptyTitleState).state = wEmptyTitleState :=
  submit_rejects_empty wEnvOk (some 5) (some 9) wEmptyTitleState (Or.inl rfl)

/-- C6: with a filled form, an upload batch that does not reject as a whole and
a successful insert, exactly one row is persisted and its `images` array holds
exactly the URLs of the successful uploads. -/
theorem submit_partial_upload (env : SubmitEnv) (issueId tenderId : Option Nat)
    (st : TrackerState)
    (ht : st.progressData.title ≠ "") (hd : st.progressData.description ≠ "")
    (hu : env.uploadThrows = false) (hins : env.insertError = none) :
    (handleSubmit env issueId tenderId st).persisted
        = [buildPayload env issueId tenderId st] ∧
      (buildPayload env issueId tenderId st).images
        = st.selectedImages.filterMap env.upload := by
  have h1 : (st.progressData.title == "" || st.progressData.description == "") = false := by
    simp [ht, hd]
  constructor
  · simp [handleSubmit, h1, hu, hins]
  · show uploadedUrls env st = _
    unfold uploadedUrls
    by_cases h3 : st.selectedImages.length > 0
    · rw [if_pos h3]
    · rw [if_neg h3]
      have : st.selectedImages = [] := List.length_eq_zero.mp (by omega)
      rw [this]
      rfl

/-- Witness for `submit_partial_upload`: two picked images of which only the
first uploads, yielding exactly one persisted row with exactly one URL. -/
theorem submit_partial_upload_witness :
    ((handleSubmit wEnvOk (some 5) (some 9) wFullState).persisted
        = [buildPayload wEnvOk (some 5) (some 9) wFullState] ∧
      (buildPayload wEnvOk (some 5) (some 9) wFullState).images
        = wFullState.selectedImages.filterMap wEnvOk.upload) ∧
      (buildPayload wEnvOk (some 5) (some 9) wFullState).images
        = ["https://cdn.example/img1"] := by
  refine ⟨submit_partial_upload wEnvOk (some 5) (some 9) wFullState
    (by decide) (by decide) rfl rfl, ?_⟩
  decide

/-- C7: the payload handed to the insert call has its materials list trimmed
and free of blank entries (given the list came through the form's input
handler), and its labor hours and expenses are the parsed decimals, defaulting
to zero when parsing fails. -/
theorem submit_payload_normalized (env : SubmitEnv) (issueId tenderId : Option Nat)
    (st : TrackerState) (txt : String)
    (ht : st.progressData.title ≠ "") (hd : st.progressData.description ≠ "")
    (hup : env.uploadThrows = false)
    (hm : st.progressData.materials_used = setMaterialsUsed txt) :
    (handleSubmit env issueId tenderId st).insertPayload
        = some (buildPayload env issueId tenderId st) ∧
      (∀ m ∈ (buildPayload env issueId tenderId st).materials_used,
        jsTrim m = m ∧ m ≠ "") ∧
      (buildPayload env issueId tenderId st).labor_hours
        = (env.parseNumber st.progressData.labor_hours).getD 0 ∧
      (buildPayload env issueId tenderId st).expenses_incurred
        = (env.parseNumber st.progressData.expenses_incurred).getD 0 := by
  have h1 : (st.progressData.title == "" || st.progressData.description == "") = false := by
    simp [ht, hd]
  refine ⟨?_, ?_, rfl, rfl⟩
  · cases he : env.insertError with
    | some e => simp [handleSubmit, h1, hup, he]
    | none => simp [handleSubmit, h1, hup, he]
  · intro m hmem
    have hm1 : m ∈ st.progressData.materials_used := (List.mem_filter.mp hmem).1
    rw [hm] at hm1
    unfold setMaterialsUsed at hm1
    obtain ⟨hm3, hm4⟩ := List.mem_filter.mp hm1
    obtain ⟨m0, _, rfl⟩ := List.mem_map.mp hm3
    refine ⟨jsTrim_idem m0, ?_⟩
    simpa using hm4

/-- Witness for `submit_payload_normalized`: the filled form, whose materials
list arises from typing a comma-separated string with stray spaces and an empty
trailing item. -/
theorem submit_payload_normalized_witness :
    (handleSubmit wEnvOk (some 5) (some 9) wFullState).insertPayload
        = some (buildPayload wEnvOk (some 5) (some 9) wFullState) ∧
      (∀ m ∈ (buildPayload wEnvOk (some 5) (some 9) wFullState).materials_used,
        jsTrim m = m ∧ m ≠ "") ∧
      (buildPayload wEnvOk (some 5) (some 9) wFullState).labor_hours
        = (wEnvOk.parseNumber wFullState.progressData.labor_hours).getD 0 ∧
      (buildPayload wEnvOk (some 5) (some 9) wFullState).expenses_incurred
        = (wEnvOk.parseNumber wFullState.progressData.expenses_incurred).getD 0 :=
  submit_payload_normalized wEnvOk (some 5) (some 9) wFullState " cement, gravel ,"
    (by decide) (by decide) rfl (by decide)

/-- C9: when the upload batch rejects or the insert is refused, the reported
outcome is the corresponding error, nothing is persisted, and the form and
image list are exactly as they were at submit time. -/
theorem submit_failure_preserves_state (env : SubmitEnv) (issueId tenderId : Option Nat)
    (st : TrackerState)
    (ht : st.progressData.title ≠ "") (hd : st.progressData.description ≠ "")
    (hfail : (env.uploadThrows = true ∧ st.selectedImages ≠ []) ∨ env.insertError.isSome) :
    (handleSubmit env issueId tenderId st).state = st ∧
      (handleSubmit env issueId tenderId st).persisted = [] ∧
      ((handleSubmit env issueId tenderId st).outcome = .uploadError ∨
        (handleSubmit env issueId tenderId st).outcome = .persistError) := by
  have h1 : (st.progressData.title == "" || st.progressData.description == "") = false := by
    simp [ht, hd]
  by_cases hg : (decide (st.selectedImages.length > 0) && env.uploadThrows) = true
  · simp [handleSubmit, h1, hg]
  · have hg2 : (decide (st.selectedImages.length > 0) && env.uploadThrows) = false :=
      Bool.eq_false_iff.mpr hg
    have h2 : env.insertError.isSome := by
      rcases hfail with ⟨hthrow, hne⟩ | h2
      · exact absurd (by simp [hthrow, List.length_pos, hne]) hg
      · exact h2
    obtain ⟨e, he⟩ := Option.isSome_iff_exists.mp h2
    simp [handleSubmit, h1, hg2, he]

/-- Witness for `submit_failure_preserves_state`: the insert call is rejected
by a policy; the filled form and both picked images survive. -/
theorem submit_failure_preserves_state_witness :
    (handleSubmit wEnvInsertFail (some 5) (some 9) wFullState).state = wFullState ∧
      (handleSubmit wEnvInsertFail (some 5) (some 9) wFullState).persisted = [] ∧
      ((handleSubmit wEnvInsertFail (some 5) (some 9) wFullState).outcome = .uploadError ∨
        (handleSubmit wEnvInsertFail (some 5) (some 9) wFullState).outcome = .persistError) :=
  submit_failure_preserves_state wEnvInsertFail (some 5) (some 9) wFullState
    (by decide) (by decide) (Or.inr rfl)

end CivicIssue
